import Mathlib

/-!
Shallow embedding of the SyncLink link lifecycle engine.

The Go repository relocates a file or directory into a sync directory and
leaves a redirect (an OS symbolic link, or a start-menu shortcut on Windows)
at the original location, tracking every redirect in a JSON registry.

The embedding mirrors, function by function:
  * `internal/config/config.go` — the registry (`Config`, `AddLink`,
    `RemoveLink`, `SetDefaultSyncPath`, `SaveConfig`, `LoadConfig`);
  * `internal/util/util.go` — the filesystem helpers and the move
    primitive (`MoveFileOrDir`, `CopyFile`/`CopyDir` semantics);
  * `internal/link/link.go` — the engine (`CreateSymbolicLink`,
    `RemoveSymbolicLink`, `RelinkSymbolicLink`, `CreateLinkOrShortcut`,
    `RelinkLinkOrShortcut`);
  * `internal/link/shortcut_windows.go` — the platform shortcut capability
    (`createShortcutWindows`, `removeShortcutWindows`,
    `relinkShortcutWindows`);
  * the bulk-operation tally loops of `cmd/unlink.go` and `cmd/relink.go`.

Modelling conventions:
  * Paths are opaque strings assumed absolute; `util.GetAbsPath` and
    `filepath.Clean` are modelled as the identity, `filepath.Join` as
    string concatenation with a slash.
  * The filesystem is a flat association list from path to node.  A
    directory node carries the list of child names that `os.ReadDir`
    would return (only emptiness is ever inspected by the source); the
    byte content of a regular file is a list of naturals.  `os.Stat`
    follows symbolic links (with fuel), `os.Lstat` does not.
  * Syscalls that can fail for reasons outside the modelled state
    (rename, symlink creation, COM shortcut creation, config writes,
    readlink, remove) take their outcome from explicit oracle
    parameters, mirroring the corresponding `if err != nil` branch of
    the source.  Attempted syscalls are recorded in an action trace so
    that frame properties ("no move happened") are observable.
  * The registry persistence is a `RegState`: the in-memory `Config`
    plus the last successfully written durable copy.  The goroutine
    fan-out of `cmd/relink.go` is sequentialized; its per-item counter
    updates are mirrored exactly.
-/

namespace SyncLink

/-- Current schema version, `internal/config/config.go` `CurrentVersion = "1.0"`. -/
def CurrentVersion : String := "1.0"

/-- Settings object of the registry (`config.Settings`). -/
structure Settings where
  defaultSyncPath : String
deriving DecidableEq

/-- One managed link record (`config.LinkInfo`). -/
structure LinkInfo where
  shortcut : Bool
  originalPath : String
  syncedPath : String
  createdAt : Nat
deriving DecidableEq

/-- Root registry structure (`config.Config`): settings, the name-to-record
mapping (modelled as an association list with unique keys), and the schema
version tag. -/
structure Config where
  settings : Settings
  links : List (String × LinkInfo)
deriving DecidableEq

/-- Schema version string is part of `config.Config`; kept as a separate
wrapper so that `SaveConfig` stamping it is visible. -/
structure VConfig where
  cfg : Config
  version : String
deriving DecidableEq

/-- Lookup of `c.Links[name]` (`Config.GetLink`). -/
def Config.getLink (c : Config) (n : String) : Option LinkInfo :=
  (c.links.find? (fun e => e.1 == n)).map (fun e => e.2)

/-- Go map assignment `c.Links[name] = info`: insert or overwrite. -/
def linksInsert (ls : List (String × LinkInfo)) (n : String) (i : LinkInfo) :
    List (String × LinkInfo) :=
  (n, i) :: ls.filter (fun e => !(e.1 == n))

/-- Go `delete(c.Links, name)`. -/
def linksDelete (ls : List (String × LinkInfo)) (n : String) :
    List (String × LinkInfo) :=
  ls.filter (fun e => !(e.1 == n))

/-- Registry process state: the in-memory configuration (with its version
stamp) and the durable copy last written to `config.json` (`none` if nothing
was ever written in the modelled run). -/
structure RegState where
  mem : VConfig
  disk : Option VConfig
deriving DecidableEq

/-- Mirrors `config.SaveConfig`: stamps `configInstance.Version =
CurrentVersion` in memory, then rewrites the whole file.  The boolean oracle
is the outcome of `os.WriteFile` (and the `EnsureDirExists`/marshal steps
collapsed with it). -/
def SaveConfig (saveOk : Bool) (s : RegState) : Option String × RegState :=
  let m1 : VConfig := ⟨s.mem.cfg, CurrentVersion⟩
  if saveOk then (none, ⟨m1, some m1⟩)
  else (some "writing config file failed", ⟨m1, s.disk⟩)

/-- Mirrors `Config.AddLink`: insert/overwrite in memory, then `SaveConfig`. -/
def AddLink (saveOk : Bool) (s : RegState) (n : String) (i : LinkInfo) :
    Option String × RegState :=
  SaveConfig saveOk ⟨⟨⟨s.mem.cfg.settings, linksInsert s.mem.cfg.links n i⟩, s.mem.version⟩, s.disk⟩

/-- Mirrors `Config.RemoveLink`: delete if present, persist only when a
deletion occurred; a failed persist is reported together with `existed =
true`. -/
def RemoveLink (saveOk : Bool) (s : RegState) (n : String) :
    (Bool × Option String) × RegState :=
  if (s.mem.cfg.getLink n).isSome then
    match SaveConfig saveOk ⟨⟨⟨s.mem.cfg.settings, linksDelete s.mem.cfg.links n⟩, s.mem.version⟩, s.disk⟩ with
    | (none, s2) => ((true, none), s2)
    | (some m, s2) => ((true, some ("link removed in memory but saving config failed: " ++ m)), s2)
  else ((false, none), s)

/-- Mirrors `Config.SetDefaultSyncPath` (`GetAbsPath` modelled as identity):
set the path in memory, then `SaveConfig`. -/
def SetDefaultSyncPath (saveOk : Bool) (s : RegState) (p : String) :
    Option String × RegState :=
  SaveConfig saveOk ⟨⟨⟨⟨p⟩, s.mem.cfg.links⟩, s.mem.version⟩, s.disk⟩

/-- Filesystem node.  A directory carries the child names `os.ReadDir` would
report; a shortcut artifact (`.lnk`) is a regular file whose payload is the
target path it points at. -/
inductive FSNode where
  | file (content : List Nat)
  | dir (children : List String)
  | symlink (target : String)
  | shortcutFile (target : String)
deriving DecidableEq

/-- Flat filesystem: association list from path to node. -/
abbrev FS := List (String × FSNode)

/-- Raw lookup of a path (the `os.Lstat` view). -/
def fsLookup (fs : FS) (p : String) : Option FSNode :=
  match fs with
  | [] => none
  | (q, n) :: rest => if q = p then some n else fsLookup rest p

/-- Drop every entry at a path. -/
def fsErase (fs : FS) (p : String) : FS :=
  fs.filter (fun e => !(e.1 == p))

/-- Set the node at a path (replacing any previous node). -/
def fsInsert (fs : FS) (p : String) (n : FSNode) : FS :=
  (p, n) :: fsErase fs p

/-- Symlink-following resolution with fuel (`os.Stat`); running out of fuel
models `ELOOP`, which every caller in the source treats as non-existence
because the error return is discarded. -/
def statFuel (fs : FS) : Nat → String → Option FSNode
  | 0, _ => none
  | k + 1, p =>
    match fsLookup fs p with
    | some (FSNode.symlink t) => statFuel fs k t
    | r => r

/-- The `os.Stat` view of a path. -/
def fsStat (fs : FS) (p : String) : Option FSNode :=
  statFuel fs (fs.length + 1) p

/-- Mirrors `util.PathExists` (based on `os.Stat`). -/
def PathExists (fs : FS) (p : String) : Bool :=
  (fsStat fs p).isSome

/-- Mirrors `util.IsDir`. -/
def IsDir (fs : FS) (p : String) : Bool :=
  match fsStat fs p with
  | some (FSNode.dir _) => true
  | _ => false

/-- Mirrors `util.IsFile` (`Mode().IsRegular()`; a shortcut artifact is a
regular file on disk). -/
def IsFile (fs : FS) (p : String) : Bool :=
  match fsStat fs p with
  | some (FSNode.file _) => true
  | some (FSNode.shortcutFile _) => true
  | _ => false

/-- Mirrors `util.IsSymlink` (based on `os.Lstat`). -/
def IsSymlink (fs : FS) (p : String) : Bool :=
  match fsLookup fs p with
  | some (FSNode.symlink _) => true
  | _ => false

/-- Mirrors `util.EnsureDirExists` (`os.MkdirAll`): fine if the directory
already exists, error if a non-directory sits at the path. -/
def EnsureDirExists (fs : FS) (p : String) : Except String FS :=
  match fsLookup fs p with
  | some (FSNode.dir _) => Except.ok fs
  | some _ => Except.error "mkdir failed: path exists and is not a directory"
  | none => Except.ok (fsInsert fs p (FSNode.dir []))

/-- `filepath.Join` on opaque absolute paths. -/
def pjoin (a b : String) : String := a ++ "/" ++ b

/-- `filepath.Dir` on opaque absolute paths. -/
def parentDir (p : String) : String :=
  String.intercalate "/" (p.splitOn "/").dropLast

/-- Syscall attempts recorded by the engine (the observable filesystem
effects; a recorded action may still have failed, according to the oracle). -/
inductive Action where
  | rename (src dst : String)
  | copyF (src dst : String)
  | copyD (src dst : String)
  | removeAllSrc (p : String)
  | removeP (p : String)
  | mkSymlink (target link : String)
  | mkShortcut (p : String)
deriving DecidableEq

/-- Outcome of the `os.Rename` attempt inside `util.MoveFileOrDir`: success,
a cross-device error (`EXDEV` / `ERROR_NOT_SAME_DEVICE`), or any other
failure. -/
inductive RenameOutcome where
  | ok
  | exdev
  | otherErr
deriving DecidableEq

/-- Oracle for one `util.MoveFileOrDir` call. -/
structure MoveEnv where
  renameOutcome : RenameOutcome
  copyOk : Bool
  removeOk : Bool
deriving DecidableEq

/-- Effect of a successful `os.Rename`: the node moves (replacing whatever
was at the destination). -/
def fsRename (fs : FS) (src dst : String) : FS :=
  match fsLookup fs src with
  | none => fs
  | some n => fsInsert (fsErase fs src) dst n

/-- Node copied by the cross-device fallback: `CopyDir` stats the source
directory, `CopyFile` opens the source file (both follow symlinks). -/
def copiedNode (fs : FS) (src : String) : FSNode :=
  match fsStat fs src with
  | some n => n
  | none => FSNode.file []

/-- Mirrors `util.MoveFileOrDir`: try `os.Rename`; on a cross-device error
fall back to copy (directory or file, per `util.IsDir`) followed by
`os.RemoveAll(src)`; any other rename error is returned as-is.  The result is
(error?, new filesystem, attempted syscalls).  `CopyFile` opens the
destination with `O_TRUNC`, so a copy overwrites any existing destination. -/
def MoveFileOrDir (env : MoveEnv) (fs : FS) (src dst : String) :
    Option String × FS × List Action :=
  match env.renameOutcome with
  | RenameOutcome.ok => (none, fsRename fs src dst, [Action.rename src dst])
  | RenameOutcome.otherErr =>
      (some "move failed (rename error, not cross-device)", fs, [Action.rename src dst])
  | RenameOutcome.exdev =>
      if IsDir fs src then
        if env.copyOk then
          let fs1 := fsInsert fs dst (copiedNode fs src)
          if env.removeOk then
            (none, fsErase fs1 src,
              [Action.rename src dst, Action.copyD src dst, Action.removeAllSrc src])
          else
            (some "copy succeeded but removing source failed", fs1,
              [Action.rename src dst, Action.copyD src dst, Action.removeAllSrc src])
        else
          (some "copying directory failed", fs,
            [Action.rename src dst, Action.copyD src dst])
      else
        if env.copyOk then
          let fs1 := fsInsert fs dst (copiedNode fs src)
          if env.removeOk then
            (none, fsErase fs1 src,
              [Action.rename src dst, Action.copyF src dst, Action.removeAllSrc src])
          else
            (some "copy succeeded but removing source failed", fs1,
              [Action.rename src dst, Action.copyF src dst, Action.removeAllSrc src])
        else
          (some "copying file failed", fs,
            [Action.rename src dst, Action.copyF src dst])

/-- True when the trace contains a copy attempt (the cross-device fallback
ran). -/
def hasCopyAction (tr : List Action) : Bool :=
  tr.any fun a =>
    match a with
    | Action.copyF _ _ => true
    | Action.copyD _ _ => true
    | _ => false

/-- Result of one engine operation: error message (if any), registry state,
data filesystem, and the attempted syscalls on the data filesystem (the
registry file write is part of `RegState`, not of the trace). -/
structure OpResult where
  err : Option String
  reg : RegState
  fs : FS
  tr : List Action
deriving DecidableEq

/-- Oracle for one `link.CreateSymbolicLink` call. -/
structure CreateEnv where
  move : MoveEnv
  symlinkOk : Bool
  moveBack : MoveEnv
  saveOk : Bool
  now : Nat
deriving DecidableEq

/-- Shared tail of `link.CreateSymbolicLink` (its move-and-link phase,
`link.go` lines 168-204): move the target to the synced path; create the
symbolic link, attempting a best-effort move-back on failure (a move-back
failure is only warned about, the symlink-creation error is returned either
way); finally `AddLink` and report a persist failure as an error. -/
def createMoveAndLink (env : CreateEnv) (reg : RegState) (fs : FS)
    (absTarget linkName syncedPath : String) : OpResult :=
  match MoveFileOrDir env.move fs absTarget syncedPath with
  | (some e, fs1, tr) => ⟨some ("moving target to synced path failed: " ++ e), reg, fs1, tr⟩
  | (none, fs1, tr) =>
    if env.symlinkOk then
      let fs2 := fsInsert fs1 absTarget (FSNode.symlink syncedPath)
      let tr2 := tr ++ [Action.mkSymlink syncedPath absTarget]
      match AddLink env.saveOk reg linkName ⟨false, absTarget, syncedPath, env.now⟩ with
      | (some m, reg1) =>
          ⟨some ("link created but saving config failed: " ++ m), reg1, fs2, tr2⟩
      | (none, reg1) => ⟨none, reg1, fs2, tr2⟩
    else
      ⟨some "creating symbolic link failed", reg,
        (MoveFileOrDir env.moveBack fs1 syncedPath absTarget).2.1,
        (tr ++ [Action.mkSymlink syncedPath absTarget])
          ++ (MoveFileOrDir env.moveBack fs1 syncedPath absTarget).2.2⟩

/-- Mirrors `link.CreateSymbolicLink`: validate the target, reject a
duplicate name, compute the synced path (files under `syncDir/files/<name>`
with no prior-existence check; directories at `syncDir/<name>` with an
anti-clobber check), then move, link and record. -/
def CreateSymbolicLink (env : CreateEnv) (reg : RegState) (fs : FS)
    (targetPath linkName syncDir : String) : OpResult :=
  if !PathExists fs targetPath then
    ⟨some "target path does not exist", reg, fs, []⟩
  else if (reg.mem.cfg.getLink linkName).isSome then
    ⟨some "link name already exists", reg, fs, []⟩
  else if IsFile fs targetPath then
    match EnsureDirExists fs (pjoin syncDir "files") with
    | Except.error e => ⟨some e, reg, fs, []⟩
    | Except.ok fs1 =>
        createMoveAndLink env reg fs1 targetPath linkName
          (pjoin (pjoin syncDir "files") linkName)
  else if IsDir fs targetPath then
    if PathExists fs (pjoin syncDir linkName) then
      ⟨some "sync target path already exists", reg, fs, []⟩
    else
      match EnsureDirExists fs (parentDir (pjoin syncDir linkName)) with
      | Except.error e => ⟨some e, reg, fs, []⟩
      | Except.ok fs1 =>
          createMoveAndLink env reg fs1 targetPath linkName (pjoin syncDir linkName)
  else
    ⟨some "target is neither a regular file nor a directory", reg, fs, []⟩

/-- Oracle for one `link.RemoveSymbolicLink` call. -/
structure RemoveEnv where
  unlinkOk : Bool
  move : MoveEnv
  saveOk : Bool
deriving DecidableEq

/-- Emptiness check of `RemoveSymbolicLink` (`link.go` lines 267-275): a
directory is empty when `os.ReadDir` returns nothing, a file when its size is
zero; a stat failure leaves `isEmpty` at `true`. -/
def nodeIsEmptyForStat : Option FSNode → Bool
  | some (FSNode.dir cs) => cs.isEmpty
  | some (FSNode.file c) => c.isEmpty
  | some (FSNode.shortcutFile _) => false
  | some (FSNode.symlink _) => false
  | none => true

/-- Final registry-cleanup phase of `RemoveSymbolicLink` (`link.go` lines
300-309). -/
def removeConfigPhase (saveOk : Bool) (reg : RegState) (fs : FS)
    (linkName : String) (tr : List Action) : OpResult :=
  match RemoveLink saveOk reg linkName with
  | ((_, some m), reg1) =>
      ⟨some ("physical work done but removing config entry failed: " ++ m), reg1, fs, tr⟩
  | ((_, none), reg1) => ⟨none, reg1, fs, tr⟩

/-- Move-back phase of `RemoveSymbolicLink` (`link.go` lines 290-298): if
the synced path still exists, move it back (failure aborts before the
registry cleanup); otherwise only warn and clean up the registry. -/
def moveBackPhase (env : RemoveEnv) (reg : RegState) (fs : FS) (info : LinkInfo)
    (linkName : String) (syncedExists : Bool) (tr : List Action) : OpResult :=
  if syncedExists then
    match MoveFileOrDir env.move fs info.syncedPath info.originalPath with
    | (some e, fs1, trm) =>
        ⟨some ("cannot move synced data back: " ++ e), reg, fs1, tr ++ trm⟩
    | (none, fs1, trm) => removeConfigPhase env.saveOk reg fs1 linkName (tr ++ trm)
  else removeConfigPhase env.saveOk reg fs linkName tr

/-- Mirrors `link.RemoveSymbolicLink`: validate the record, delete the
symlink when the original location really is one, refuse the move-back when
the original path is occupied by non-empty non-symlink content (dropping
only the registry record and reporting a conflict), otherwise move the data
back and drop the record. -/
def RemoveSymbolicLink (env : RemoveEnv) (reg : RegState) (fs : FS)
    (linkName : String) : OpResult :=
  match reg.mem.cfg.getLink linkName with
  | none => ⟨some "link not found in config", reg, fs, []⟩
  | some info =>
    if info.shortcut then
      ⟨some "link is a shortcut, use the shortcut removal path", reg, fs, []⟩
    else if info.originalPath == "" || info.syncedPath == "" then
      ⟨some "link config incomplete", reg, fs, []⟩
    else
      let originalExists := PathExists fs info.originalPath
      let isSym := originalExists && IsSymlink fs info.originalPath
      let syncedExists := PathExists fs info.syncedPath
      if isSym then
        if env.unlinkOk then
          moveBackPhase env reg (fsErase fs info.originalPath) info linkName syncedExists
            [Action.removeP info.originalPath]
        else
          ⟨some "deleting the symbolic link failed", reg, fs,
            [Action.removeP info.originalPath]⟩
      else if originalExists then
        if !(nodeIsEmptyForStat (fsStat fs info.originalPath)) then
          ⟨some "conflict: original path exists, is not the expected symlink, and is non-empty; move-back cancelled to prevent data loss",
            (RemoveLink env.saveOk reg linkName).2, fs, []⟩
        else moveBackPhase env reg fs info linkName syncedExists []
      else moveBackPhase env reg fs info linkName syncedExists []

/-- Oracle for one `link.RelinkSymbolicLink` call. -/
structure RelinkEnv where
  readlinkOk : Bool
  removeOk : Bool
  symlinkOk : Bool
deriving DecidableEq

/-- Target read by `os.Readlink` (callers only reach this when the node is a
symlink). -/
def readlinkTarget (fs : FS) (p : String) : String :=
  match fsLookup fs p with
  | some (FSNode.symlink t) => t
  | _ => ""

/-- Recreation phase of `RelinkSymbolicLink` (`link.go` lines 372-384): the
synced path must still exist, then the symlink is recreated. -/
def relinkRecreatePhase (env : RelinkEnv) (reg : RegState) (fs : FS)
    (info : LinkInfo) (tr : List Action) : OpResult :=
  if !PathExists fs info.syncedPath then
    ⟨some "synced path does not exist, cannot recreate the link", reg, fs, tr⟩
  else if env.symlinkOk then
    ⟨none, reg, fsInsert fs info.originalPath (FSNode.symlink info.syncedPath),
      tr ++ [Action.mkSymlink info.syncedPath info.originalPath]⟩
  else
    ⟨some "recreating the symbolic link failed", reg, fs,
      tr ++ [Action.mkSymlink info.syncedPath info.originalPath]⟩

/-- Mirrors `link.RelinkSymbolicLink`: no-op when the symlink is present and
points at the recorded synced path; conflict when the original path holds a
non-symlink; otherwise delete any wrong/broken link and recreate it from the
record. -/
def RelinkSymbolicLink (env : RelinkEnv) (reg : RegState) (fs : FS)
    (linkName : String) : OpResult :=
  match reg.mem.cfg.getLink linkName with
  | none => ⟨some "link not found in config", reg, fs, []⟩
  | some info =>
    if info.shortcut then
      ⟨some "link is a shortcut, use the shortcut relink path", reg, fs, []⟩
    else if info.originalPath == "" || info.syncedPath == "" then
      ⟨some "link config incomplete", reg, fs, []⟩
    else if !PathExists fs info.originalPath then
      relinkRecreatePhase env reg fs info []
    else if !IsSymlink fs info.originalPath then
      ⟨some "path exists but is not a symbolic link, cannot relink", reg, fs, []⟩
    else if !env.readlinkOk then
      if env.removeOk then
        relinkRecreatePhase env reg (fsErase fs info.originalPath) info
          [Action.removeP info.originalPath]
      else
        ⟨some "cannot remove the broken symbolic link", reg, fs,
          [Action.removeP info.originalPath]⟩
    else if readlinkTarget fs info.originalPath ≠ info.syncedPath then
      if env.removeOk then
        relinkRecreatePhase env reg (fsErase fs info.originalPath) info
          [Action.removeP info.originalPath]
      else
        ⟨some "cannot remove the mispointed symbolic link", reg, fs,
          [Action.removeP info.originalPath]⟩
    else ⟨none, reg, fs, []⟩

/-- Oracle for the platform shortcut capability
(`shortcut_windows.go`). -/
structure ShortcutEnv where
  delegates : Bool
  startMenuOk : Bool
  startMenuPath : String
  createOk : Bool
  removeOk : Bool
  saveOk : Bool
deriving DecidableEq

/-- Mirrors `removeShortcutWindows`: removing an absent artifact is success;
otherwise `os.Remove` it. -/
def removeShortcutWindows (env : ShortcutEnv) (fs : FS)
    (linkName startMenuBase : String) : Option String × FS × List Action :=
  let p := pjoin startMenuBase (linkName ++ ".lnk")
  if PathExists fs p then
    if env.removeOk then (none, fsErase fs p, [Action.removeP p])
    else (some "deleting the shortcut file failed", fs, [Action.removeP p])
  else (none, fs, [])

/-- Mirrors `createShortcutWindows`: ensure the start-menu directory exists,
then (COM steps collapsed into one oracle) save the `.lnk` artifact,
overwriting any artifact already at that slot.  Also returns the artifact
path. -/
def createShortcutWindows (env : ShortcutEnv) (fs : FS)
    (targetPath linkName startMenuBase : String) :
    Option String × String × FS × List Action :=
  let p := pjoin startMenuBase (linkName ++ ".lnk")
  match EnsureDirExists fs startMenuBase with
  | Except.error e => (some e, p, fs, [])
  | Except.ok fs1 =>
    if env.createOk then
      (none, p, fsInsert fs1 p (FSNode.shortcutFile targetPath), [Action.mkShortcut p])
    else (some "creating the shortcut via COM failed", p, fs1, [])

/-- Mirrors `relinkShortcutWindows`: delete the old artifact if present (a
deletion failure is only warned about), then unconditionally recreate the
artifact from the record — the implementation never checks whether the
existing artifact is already correct. -/
def relinkShortcutWindows (env : ShortcutEnv) (fs : FS)
    (linkName startMenuBase : String) (info : LinkInfo) :
    Option String × FS × List Action :=
  match removeShortcutWindows env fs linkName startMenuBase with
  | (_, fs1, tr1) =>
    match createShortcutWindows env fs1 info.originalPath linkName startMenuBase with
    | (some m, _, fs2, tr2) =>
        (some ("recreating the shortcut failed: " ++ m), fs2, tr1 ++ tr2)
    | (none, _, fs2, tr2) => (none, fs2, tr1 ++ tr2)

/-- Mirrors `link.CreateLinkOrShortcut` (the caller-facing `createRedirect`):
for a shortcut, resolve the start menu, check the target exists, create the
artifact and `AddLink` (with best-effort artifact removal if the persist
fails); note the shortcut branch performs no duplicate-name check.  For a
symlink it delegates to `CreateSymbolicLink`. -/
def CreateLinkOrShortcut (cenv : CreateEnv) (senv : ShortcutEnv)
    (reg : RegState) (fs : FS) (targetPath linkName syncPathBase : String)
    (isShortcut : Bool) : OpResult :=
  if isShortcut then
    if !senv.delegates then
      ⟨some "shortcut creation unsupported on this platform", reg, fs, []⟩
    else if !senv.startMenuOk then
      ⟨some "cannot resolve the start menu path", reg, fs, []⟩
    else if !PathExists fs targetPath then
      ⟨some "shortcut target path does not exist", reg, fs, []⟩
    else
      match createShortcutWindows senv fs targetPath linkName senv.startMenuPath with
      | (some e, _, fs1, tr) => ⟨some e, reg, fs1, tr⟩
      | (none, scPath, fs1, tr) =>
        match AddLink senv.saveOk reg linkName ⟨true, targetPath, scPath, cenv.now⟩ with
        | (some m, reg1) =>
            if senv.removeOk then
              ⟨some ("shortcut created but saving config failed: " ++ m), reg1,
                fsErase fs1 scPath, tr ++ [Action.removeP scPath]⟩
            else
              ⟨some ("shortcut created but saving config failed: " ++ m), reg1,
                fs1, tr ++ [Action.removeP scPath]⟩
        | (none, reg1) => ⟨none, reg1, fs1, tr⟩
  else CreateSymbolicLink cenv reg fs targetPath linkName syncPathBase

/-- Error wrapping done by `fmt.Errorf` at the `RelinkLinkOrShortcut`
dispatch level: prefix the message if the inner operation failed, otherwise
return its result untouched. -/
def wrapErr (msg : String) (r : OpResult) : OpResult :=
  match r.err with
  | some m => ⟨some (msg ++ m), r.reg, r.fs, r.tr⟩
  | none => r

/-- Mirrors `link.RelinkLinkOrShortcut` (the caller-facing `relinkRedirect`):
dispatch by recorded kind, wrapping the inner error. -/
def RelinkLinkOrShortcut (renv : RelinkEnv) (senv : ShortcutEnv)
    (reg : RegState) (fs : FS) (linkName : String) : OpResult :=
  match reg.mem.cfg.getLink linkName with
  | none => ⟨some "link not found in config", reg, fs, []⟩
  | some info =>
    if info.shortcut then
      if !senv.delegates then
        ⟨some "shortcut relink unsupported on this platform", reg, fs, []⟩
      else if !senv.startMenuOk then
        ⟨some "cannot resolve the start menu path", reg, fs, []⟩
      else
        match relinkShortcutWindows senv fs linkName senv.startMenuPath info with
        | (some m, fs1, tr) =>
            ⟨some ("relinking shortcut failed: " ++ m), reg, fs1, tr⟩
        | (none, fs1, tr) => ⟨none, reg, fs1, tr⟩
    else
      wrapErr "relinking symbolic link failed: " (RelinkSymbolicLink renv reg fs linkName)

/-- Tally loop of the bulk remove in `cmd/unlink.go` (`linkName == "*"`):
`successCount` is incremented on success, but the error branch only prints —
`failCount` is never incremented.  `ok n` is the outcome of
`RemoveLinkOrShortcut` for link `n`. -/
def unlinkAllTally (ok : String → Bool) (names : List String) : Nat × Nat :=
  names.foldl (fun acc n => if ok n then (acc.1 + 1, acc.2) else acc) (0, 0)

/-- Tally loop of `cmd/relink.go` `relinkAllLinks`, sequentialized: the
mutex-protected counter update increments `failureCount` on failure and
`successCount` on success. -/
def relinkAllTally (ok : String → Bool) (names : List String) : Nat × Nat :=
  names.foldl (fun acc n => if ok n then (acc.1 + 1, acc.2) else (acc.1, acc.2 + 1)) (0, 0)

/-- Persisted-state input of `config.LoadConfig`. -/
inductive FileState where
  | missing
  | present (content : String)
deriving DecidableEq

/-- Default configuration synthesized when no config file exists
(`config.go` lines 97-104). -/
def defaultVConfig : VConfig := ⟨⟨⟨""⟩, []⟩, CurrentVersion⟩

/-- Placeholder instance installed at the top of the empty-file branch
(`config.go` lines 131-135): empty settings, empty links, empty version. -/
def emptyBranchVConfig : VConfig := ⟨⟨⟨""⟩, []⟩, ""⟩

/-- The literal two-character JSON object text compared against on
`config.go` line 137. -/
def emptyObjectText : String := "\x7b\x7d"

/-- The literal JSON null text compared against on `config.go` line 137. -/
def nullText : String := "null"

/-- Mirrors `config.LoadConfig` (single-shot body of the `once.Do`).
`parsed` is the result of `json.Unmarshal` on the file content (`none` when
unmarshalling errors; for a zero-length file Go's `json.Unmarshal` always
errors with "unexpected end of JSON input").  Returns the loaded in-memory
configuration and the durable copy written during the load, if any. -/
def LoadConfig (file : FileState) (parsed : Option VConfig) (saveOk : Bool) :
    Except String (VConfig × Option VConfig) :=
  match file with
  | FileState.missing =>
      if saveOk then Except.ok (defaultVConfig, some defaultVConfig)
      else Except.error "cannot save the default config file"
  | FileState.present content =>
      if content.length == 0 then
        match parsed with
        | some c => Except.ok (c, none)
        | none =>
            if content == emptyObjectText || content == nullText then
              Except.ok (emptyBranchVConfig, none)
            else Except.error "parsing empty or invalid config file failed"
      else
        match parsed with
        | none => Except.error "parsing config file failed"
        | some c =>
            if c.version ≠ CurrentVersion then
              Except.ok (⟨c.cfg, CurrentVersion⟩, none)
            else Except.ok (c, none)

/-! ## Helper lemmas about the filesystem and registry maps -/

theorem fsLookup_insert_self (fs : FS) (p : String) (n : FSNode) :
    fsLookup (fsInsert fs p n) p = some n := by
  simp [fsInsert, fsLookup]

theorem fsLookup_erase_ne (fs : FS) (p q : String) (h : q ≠ p) :
    fsLookup (fsErase fs p) q = fsLookup fs q := by
  induction fs with
  | nil => rfl
  | cons a rest ih =>
    simp only [fsErase, List.filter_cons] at ih ⊢
    by_cases ha : a.1 = p
    · have hb : (!(a.1 == p)) = false := by simp [ha]
      have haq : ¬ a.1 = q := by rw [ha]; exact fun hq => h hq.symm
      rw [hb]
      simp [fsLookup, haq, ih]
    · have hb : (!(a.1 == p)) = true := by simp [ha]
      rw [hb]
      by_cases haq : a.1 = q
      · simp [fsLookup, haq]
      · simp [fsLookup, haq, ih]

theorem fsLookup_insert_ne (fs : FS) (p q : String) (n : FSNode) (h : q ≠ p) :
    fsLookup (fsInsert fs p n) q = fsLookup fs q := by
  simp [fsInsert, fsLookup, Ne.symm h]
  exact fsLookup_erase_ne fs p q h

theorem statFuel_succ_of_lookup (fs : FS) (k : Nat) (p : String) (r : Option FSNode)
    (h : fsLookup fs p = r) (hr : ∀ t, r ≠ some (FSNode.symlink t)) :
    statFuel fs (k + 1) p = r := by
  unfold statFuel
  rw [h]
  cases r with
  | none => rfl
  | some n =>
    cases n with
    | symlink t => exact absurd rfl (hr t)
    | file c => rfl
    | dir cs => rfl
    | shortcutFile t => rfl

theorem fsStat_file (fs : FS) (p : String) (c : List Nat)
    (h : fsLookup fs p = some (FSNode.file c)) : fsStat fs p = some (FSNode.file c) := by
  unfold fsStat
  exact statFuel_succ_of_lookup fs fs.length p _ h (by intro t hc; cases hc)

theorem fsStat_dir (fs : FS) (p : String) (cs : List String)
    (h : fsLookup fs p = some (FSNode.dir cs)) : fsStat fs p = some (FSNode.dir cs) := by
  unfold fsStat
  exact statFuel_succ_of_lookup fs fs.length p _ h (by intro t hc; cases hc)

theorem fsStat_shortcutFile (fs : FS) (p : String) (t : String)
    (h : fsLookup fs p = some (FSNode.shortcutFile t)) :
    fsStat fs p = some (FSNode.shortcutFile t) := by
  unfold fsStat
  exact statFuel_succ_of_lookup fs fs.length p _ h (by intro u hc; cases hc)

theorem fsStat_none (fs : FS) (p : String)
    (h : fsLookup fs p = none) : fsStat fs p = none := by
  unfold fsStat
  exact statFuel_succ_of_lookup fs fs.length p _ h (by intro t hc; cases hc)

theorem fsStat_symlink_file (fs : FS) (p t : String) (c : List Nat)
    (hp : fsLookup fs p = some (FSNode.symlink t))
    (ht : fsLookup fs t = some (FSNode.file c)) :
    fsStat fs p = some (FSNode.file c) := by
  unfold fsStat
  have hfs : fs ≠ [] := by
    intro hnil
    rw [hnil] at hp
    simp [fsLookup] at hp
  obtain ⟨a, rest, hcons⟩ : ∃ a rest, fs = a :: rest := by
    cases fs with
    | nil => exact absurd rfl hfs
    | cons a rest => exact ⟨a, rest, rfl⟩
  have hlen : fs.length = rest.length + 1 := by rw [hcons]; rfl
  rw [hlen]
  show statFuel fs (rest.length + 1 + 1) p = some (FSNode.file c)
  unfold statFuel
  rw [hp]
  exact statFuel_succ_of_lookup fs rest.length t _ ht (by intro u hc; cases hc)

theorem fsStat_symlink_dir (fs : FS) (p t : String) (cs : List String)
    (hp : fsLookup fs p = some (FSNode.symlink t))
    (ht : fsLookup fs t = some (FSNode.dir cs)) :
    fsStat fs p = some (FSNode.dir cs) := by
  unfold fsStat
  have hfs : fs ≠ [] := by
    intro hnil
    rw [hnil] at hp
    simp [fsLookup] at hp
  obtain ⟨a, rest, hcons⟩ : ∃ a rest, fs = a :: rest := by
    cases fs with
    | nil => exact absurd rfl hfs
    | cons a rest => exact ⟨a, rest, rfl⟩
  have hlen : fs.length = rest.length + 1 := by rw [hcons]; rfl
  rw [hlen]
  show statFuel fs (rest.length + 1 + 1) p = some (FSNode.dir cs)
  unfold statFuel
  rw [hp]
  exact statFuel_succ_of_lookup fs rest.length t _ ht (by intro u hc; cases hc)

theorem pjoin_ne (a b : String) : pjoin a b ≠ a := by
  intro h
  have hlen : (pjoin a b).length = a.length := by rw [h]
  rw [pjoin, String.length_append, String.length_append] at hlen
  have h1 : ("/" : String).length = 1 := by decide
  rw [h1] at hlen
  omega

theorem find_filtered_out (ls : List (String × LinkInfo)) (n : String) :
    (ls.filter (fun e => !(e.1 == n))).find? (fun e => e.1 == n) = none := by
  induction ls with
  | nil => rfl
  | cons a rest ih =>
    cases ha : (a.1 == n) with
    | true => simp [List.filter_cons, ha, ih]
    | false => simp [List.filter_cons, ha, List.find?, ih]

theorem getLink_linksInsert (c : Config) (set2 : Settings) (n : String) (i : LinkInfo) :
    (Config.mk set2 (linksInsert c.links n i)).getLink n = some i := by
  simp [Config.getLink, linksInsert, List.find?]

theorem getLink_linksDelete (c : Config) (set2 : Settings) (n : String) :
    (Config.mk set2 (linksDelete c.links n)).getLink n = none := by
  simp only [Config.getLink, linksDelete, find_filtered_out, Option.map_none']

theorem wrapErr_reg (msg : String) (r : OpResult) : (wrapErr msg r).reg = r.reg := by
  unfold wrapErr
  split <;> rfl

theorem relinkRecreatePhase_reg (env : RelinkEnv) (reg : RegState) (fs : FS)
    (info : LinkInfo) (tr : List Action) :
    (relinkRecreatePhase env reg fs info tr).reg = reg := by
  cases h1 : PathExists fs info.syncedPath <;> cases h2 : env.symlinkOk <;>
    simp [relinkRecreatePhase, h1, h2]

theorem RelinkSymbolicLink_reg (env : RelinkEnv) (reg : RegState) (fs : FS)
    (n : String) : (RelinkSymbolicLink env reg fs n).reg = reg := by
  unfold RelinkSymbolicLink
  repeat' first
    | rfl
    | exact relinkRecreatePhase_reg _ _ _ _ _
    | split

theorem rename_mem_move_trace (env : MoveEnv) (fs : FS) (src dst : String) :
    Action.rename src dst ∈ (MoveFileOrDir env fs src dst).2.2 := by
  rcases env with ⟨ro, co, rm⟩
  cases ro <;> cases co <;> cases rm <;> cases hd : IsDir fs src <;>
    simp [MoveFileOrDir, hd]

theorem RemoveLink_mem_cfg (saveOk : Bool) (s : RegState) (n : String)
    (h : (s.mem.cfg.getLink n).isSome = true) :
    (RemoveLink saveOk s n).2.mem.cfg
      = Config.mk s.mem.cfg.settings (linksDelete s.mem.cfg.links n) := by
  cases saveOk <;> simp [RemoveLink, h, SaveConfig]

/-! ## Claim theorems -/

/-- C5: `util.MoveFileOrDir` first attempts an atomic rename; the
copy-then-delete fallback runs if and only if the rename failure is a
cross-device error (any other rename failure is returned without copying);
and when the fallback's copy succeeds but the removal of the source fails,
the move returns an error rather than success. -/
theorem C5_move_fallback (env : MoveEnv) (fs : FS) (src dst : String) :
    ((MoveFileOrDir env fs src dst).2.2.head? = some (Action.rename src dst))
    ∧ (hasCopyAction (MoveFileOrDir env fs src dst).2.2 = true ↔
        env.renameOutcome = RenameOutcome.exdev)
    ∧ (env.renameOutcome = RenameOutcome.otherErr →
        (MoveFileOrDir env fs src dst).1.isSome = true
        ∧ hasCopyAction (MoveFileOrDir env fs src dst).2.2 = false)
    ∧ (env.renameOutcome = RenameOutcome.exdev → env.copyOk = true →
        env.removeOk = false → (MoveFileOrDir env fs src dst).1.isSome = true) := by
  rcases env with ⟨ro, co, rm⟩
  cases ro <;> cases co <;> cases rm <;> cases hd : IsDir fs src <;>
    simp [MoveFileOrDir, hasCopyAction, hd]

/-- Witness for C5 at a concrete cross-device environment with a failing
post-copy removal. -/
theorem C5_move_fallback_witness :
    hasCopyAction (MoveFileOrDir ⟨RenameOutcome.exdev, true, false⟩ [] "a" "b").2.2 = true
    ∧ (MoveFileOrDir ⟨RenameOutcome.exdev, true, false⟩ [] "a" "b").1.isSome = true :=
  ⟨(C5_move_fallback ⟨RenameOutcome.exdev, true, false⟩ [] "a" "b").2.1.mpr rfl,
   (C5_move_fallback ⟨RenameOutcome.exdev, true, false⟩ [] "a" "b").2.2.2 rfl rfl rfl⟩

/-- C3 (code bug): the bulk remove loop of `cmd/unlink.go` never increments
its failure counter — with links `good` (removal succeeds) and `bad`
(removal fails) it reports 1 success and 0 failures, whereas the claim
requires the failure count to equal the number of failed links (1 here).
The bulk relink loop of `cmd/relink.go` does count both. -/
theorem C3_bulk_tally_bug :
    unlinkAllTally (fun n => n == "good") ["good", "bad"] = (1, 0)
    ∧ relinkAllTally (fun n => n == "good") ["good", "bad"] = (1, 1) := by
  constructor <;> rfl

/-- C7 (code bug): `config.LoadConfig` on a zero-length persisted file
returns a fatal parse error — `json.Unmarshal` of empty data always errors
and the empty content equals neither the empty-object text nor `null`, so
the recovery condition on `config.go` line 137 can never fire — whereas the
claim (and the code's own comments) intend an empty file to be replaced by
an empty-but-valid registry.  The remaining conjuncts confirm the other
behaviours of the claim: a missing file synthesizes and immediately persists
a default registry; parseable `\x7b\x7d` content is substituted with an
empty registry upgraded to the current version; unparsable non-trivial
content is a fatal load error. -/
theorem C7_load_empty_file :
    LoadConfig (FileState.present "") none true
      = Except.error "parsing empty or invalid config file failed"
    ∧ LoadConfig FileState.missing none true
      = Except.ok (defaultVConfig, some defaultVConfig)
    ∧ LoadConfig (FileState.present emptyObjectText) (some emptyBranchVConfig) true
      = Except.ok (⟨⟨⟨""⟩, []⟩, CurrentVersion⟩, none)
    ∧ LoadConfig (FileState.present "not json at all") none true
      = Except.error "parsing config file failed" := by
  refine ⟨rfl, rfl, rfl, rfl⟩

/-- C9: `relinkRedirect` (`link.RelinkLinkOrShortcut`), whether it succeeds,
is a no-op, or fails, never creates, deletes, or modifies any registry
record: the registry state after relink equals the state before it, for
every link name, registry, filesystem and oracle. -/
theorem C9_relink_frame (renv : RelinkEnv) (senv : ShortcutEnv) (reg : RegState)
    (fs : FS) (linkName : String) :
    (RelinkLinkOrShortcut renv senv reg fs linkName).reg = reg := by
  unfold RelinkLinkOrShortcut
  repeat' first
    | rfl
    | exact (wrapErr_reg _ _).trans (RelinkSymbolicLink_reg _ _ _ _)
    | split

/-- C6: every registry mutation (`AddLink` = put, `RemoveLink`,
`SetDefaultSyncPath`) re-serializes the entire registry to durable storage
before reporting success; when persistence fails the operation returns an
error while the in-memory state still reflects the mutation (no rollback);
and `RemoveLink` persists only when a deletion actually occurred. -/
theorem C6_registry_persistence :
    (∀ (s : RegState) (n : String) (i : LinkInfo),
      (AddLink true s n i).1 = none
      ∧ (AddLink true s n i).2.disk = some (AddLink true s n i).2.mem
      ∧ (AddLink true s n i).2.mem.cfg.getLink n = some i)
    ∧ (∀ (s : RegState) (n : String) (i : LinkInfo),
      (AddLink false s n i).1.isSome = true
      ∧ (AddLink false s n i).2.mem.cfg.getLink n = some i
      ∧ (AddLink false s n i).2.disk = s.disk)
    ∧ (∀ (s : RegState) (n : String),
      (s.mem.cfg.getLink n).isSome = true →
      (RemoveLink true s n).1 = (true, none)
      ∧ (RemoveLink true s n).2.disk = some (RemoveLink true s n).2.mem
      ∧ (RemoveLink true s n).2.mem.cfg.getLink n = none)
    ∧ (∀ (s : RegState) (n : String),
      (s.mem.cfg.getLink n).isSome = true →
      (RemoveLink false s n).1.1 = true
      ∧ (RemoveLink false s n).1.2.isSome = true
      ∧ (RemoveLink false s n).2.mem.cfg.getLink n = none
      ∧ (RemoveLink false s n).2.disk = s.disk)
    ∧ (∀ (s : RegState) (n : String),
      s.mem.cfg.getLink n = none →
      RemoveLink true s n = ((false, none), s)
      ∧ RemoveLink false s n = ((false, none), s))
    ∧ (∀ (s : RegState) (p : String),
      (SetDefaultSyncPath true s p).1 = none
      ∧ (SetDefaultSyncPath true s p).2.disk = some (SetDefaultSyncPath true s p).2.mem
      ∧ (SetDefaultSyncPath true s p).2.mem.cfg.settings.defaultSyncPath = p)
    ∧ (∀ (s : RegState) (p : String),
      (SetDefaultSyncPath false s p).1.isSome = true
      ∧ (SetDefaultSyncPath false s p).2.mem.cfg.settings.defaultSyncPath = p
      ∧ (SetDefaultSyncPath false s p).2.disk = s.disk) := by
  refine ⟨?_, ?_, ?_, ?_, ?_, ?_, ?_⟩
  · intro s n i
    exact ⟨rfl, rfl, getLink_linksInsert s.mem.cfg s.mem.cfg.settings n i⟩
  · intro s n i
    exact ⟨rfl, getLink_linksInsert s.mem.cfg s.mem.cfg.settings n i, rfl⟩
  · intro s n h
    refine ⟨?_, ?_, ?_⟩ <;> simp [RemoveLink, h, SaveConfig]
    exact getLink_linksDelete s.mem.cfg s.mem.cfg.settings n
  · intro s n h
    refine ⟨?_, ?_, ?_, ?_⟩ <;> simp [RemoveLink, h, SaveConfig]
    exact getLink_linksDelete s.mem.cfg s.mem.cfg.settings n
  · intro s n h
    have h2 : (s.mem.cfg.getLink n).isSome = false := by rw [h]; rfl
    constructor <;> simp [RemoveLink, h2]
  · intro s p
    exact ⟨rfl, rfl, rfl⟩
  · intro s p
    exact ⟨rfl, rfl, rfl⟩

/-- Witness for C6 at a one-record registry: a successful removal persists
the deletion, and persistence failure after a removal is reported while the
in-memory deletion stands. -/
theorem C6_registry_persistence_witness :
    (AddLink true ⟨⟨⟨⟨""⟩, []⟩, "1.0"⟩, none⟩ "a" ⟨false, "/o", "/s", 0⟩).1 = none
    ∧ (RemoveLink true ⟨⟨⟨⟨""⟩, [("a", ⟨false, "/o", "/s", 0⟩)]⟩, "1.0"⟩, none⟩ "a").1
        = (true, none)
    ∧ (RemoveLink false ⟨⟨⟨⟨""⟩, [("a", ⟨false, "/o", "/s", 0⟩)]⟩, "1.0"⟩, none⟩ "a").1.2.isSome
        = true
    ∧ RemoveLink true ⟨⟨⟨⟨""⟩, []⟩, "1.0"⟩, none⟩ "b"
        = ((false, none), ⟨⟨⟨⟨""⟩, []⟩, "1.0"⟩, none⟩) :=
  ⟨(C6_registry_persistence.1 ⟨⟨⟨⟨""⟩, []⟩, "1.0"⟩, none⟩ "a" ⟨false, "/o", "/s", 0⟩).1,
   (C6_registry_persistence.2.2.1 ⟨⟨⟨⟨""⟩, [("a", ⟨false, "/o", "/s", 0⟩)]⟩, "1.0"⟩, none⟩ "a"
      (by decide)).1,
   (C6_registry_persistence.2.2.2.1 ⟨⟨⟨⟨""⟩, [("a", ⟨false, "/o", "/s", 0⟩)]⟩, "1.0"⟩, none⟩ "a"
      (by decide)).2.1,
   (C6_registry_persistence.2.2.2.2.1 ⟨⟨⟨⟨""⟩, []⟩, "1.0"⟩, none⟩ "b" (by decide)).1⟩

/-- C4: for a Symlink-kind record whose original path exists, is not a
symbolic link, and holds non-empty content (non-empty directory, or regular
file of non-zero size), `RemoveSymbolicLink` refuses the move-back: it
performs no filesystem action at all (neither deleting nor overwriting the
original content, nor moving the synced data), drops only the registry
record (settings and all other records untouched), and returns a conflict
error rather than success. -/
theorem C4_remove_conflict (env : RemoveEnv) (reg : RegState) (fs : FS)
    (linkName : String) (info : LinkInfo) (node : FSNode)
    (hget : reg.mem.cfg.getLink linkName = some info)
    (hkind : info.shortcut = false)
    (hop : (info.originalPath == "") = false)
    (hsp : (info.syncedPath == "") = false)
    (hnode : fsLookup fs info.originalPath = some node)
    (hdata : (match node with
              | FSNode.file c => !c.isEmpty
              | FSNode.dir cs => !cs.isEmpty
              | _ => false) = true) :
    (RemoveSymbolicLink env reg fs linkName).err.isSome = true
    ∧ (RemoveSymbolicLink env reg fs linkName).fs = fs
    ∧ (RemoveSymbolicLink env reg fs linkName).tr = []
    ∧ (RemoveSymbolicLink env reg fs linkName).reg.mem.cfg.links
        = linksDelete reg.mem.cfg.links linkName
    ∧ (RemoveSymbolicLink env reg fs linkName).reg.mem.cfg.settings
        = reg.mem.cfg.settings := by
  have hgs : (reg.mem.cfg.getLink linkName).isSome = true := by rw [hget]; rfl
  have hcfg := RemoveLink_mem_cfg env.saveOk reg linkName hgs
  cases node with
  | symlink t => simp at hdata
  | shortcutFile t => simp at hdata
  | file c =>
    have hstat : fsStat fs info.originalPath = some (FSNode.file c) :=
      fsStat_file fs info.originalPath c hnode
    have hempty : c.isEmpty = false := by
      simp at hdata
      simp [List.isEmpty_iff, hdata]
    unfold RemoveSymbolicLink
    rw [hget]
    simp only [hkind, hop, hsp, Bool.or_self, Bool.false_eq_true, if_false,
      PathExists, IsSymlink, hstat, hnode, nodeIsEmptyForStat, hempty]
    simp [hcfg]
  | dir cs =>
    have hstat : fsStat fs info.originalPath = some (FSNode.dir cs) :=
      fsStat_dir fs info.originalPath cs hnode
    have hempty : cs.isEmpty = false := by
      simp at hdata
      simp [List.isEmpty_iff, hdata]
    unfold RemoveSymbolicLink
    rw [hget]
    simp only [hkind, hop, hsp, Bool.or_self, Bool.false_eq_true, if_false,
      PathExists, IsSymlink, hstat, hnode, nodeIsEmptyForStat, hempty]
    simp [hcfg]

/-- Witness for C4: a record whose original path holds a non-empty regular
file and whose synced data still exists. -/
theorem C4_remove_conflict_witness :
    (RemoveSymbolicLink ⟨true, ⟨RenameOutcome.ok, true, true⟩, true⟩
        ⟨⟨⟨⟨"/sync"⟩, [("a", ⟨false, "/orig", "/sync/files/a", 0⟩)]⟩, "1.0"⟩, none⟩
        [("/orig", FSNode.file [1, 2]), ("/sync/files/a", FSNode.file [9])]
        "a").err.isSome = true
    ∧ (RemoveSymbolicLink ⟨true, ⟨RenameOutcome.ok, true, true⟩, true⟩
        ⟨⟨⟨⟨"/sync"⟩, [("a", ⟨false, "/orig", "/sync/files/a", 0⟩)]⟩, "1.0"⟩, none⟩
        [("/orig", FSNode.file [1, 2]), ("/sync/files/a", FSNode.file [9])]
        "a").fs = [("/orig", FSNode.file [1, 2]), ("/sync/files/a", FSNode.file [9])]
    ∧ (RemoveSymbolicLink ⟨true, ⟨RenameOutcome.ok, true, true⟩, true⟩
        ⟨⟨⟨⟨"/sync"⟩, [("a", ⟨false, "/orig", "/sync/files/a", 0⟩)]⟩, "1.0"⟩, none⟩
        [("/orig", FSNode.file [1, 2]), ("/sync/files/a", FSNode.file [9])]
        "a").reg.mem.cfg.links = [] := by
  have h := C4_remove_conflict ⟨true, ⟨RenameOutcome.ok, true, true⟩, true⟩
    ⟨⟨⟨⟨"/sync"⟩, [("a", ⟨false, "/orig", "/sync/files/a", 0⟩)]⟩, "1.0"⟩, none⟩
    [("/orig", FSNode.file [1, 2]), ("/sync/files/a", FSNode.file [9])]
    "a" ⟨false, "/orig", "/sync/files/a", 0⟩ (FSNode.file [1, 2])
    (by decide) rfl (by decide) (by decide) (by decide) (by decide)
  exact ⟨h.1, h.2.1, h.2.2.2.1⟩

/-- C8: in Symlink-kind create, if creating the symbolic link fails after
the data was successfully moved to the synced path, the engine attempts to
move the data back to the original path (the move-back is attempted
whatever its own outcome, and a move-back failure does not change the
returned error), the registry is left untouched, and the operation returns
the creation error — never success. -/
theorem C8_rollback (cenv : CreateEnv) (reg : RegState) (fs : FS)
    (targetPath linkName syncDir : String) (c : List Nat)
    (hname : reg.mem.cfg.getLink linkName = none)
    (htarget : fsLookup fs targetPath = some (FSNode.file c))
    (hfiles : fsLookup fs (pjoin syncDir "files") = none)
    (hmv : cenv.move.renameOutcome = RenameOutcome.ok)
    (hsym : cenv.symlinkOk = false) :
    (CreateSymbolicLink cenv reg fs targetPath linkName syncDir).err.isSome = true
    ∧ Action.rename (pjoin (pjoin syncDir "files") linkName) targetPath
        ∈ (CreateSymbolicLink cenv reg fs targetPath linkName syncDir).tr
    ∧ (CreateSymbolicLink cenv reg fs targetPath linkName syncDir).reg = reg := by
  have hstat : fsStat fs targetPath = some (FSNode.file c) :=
    fsStat_file fs targetPath c htarget
  have hgn : (reg.mem.cfg.getLink linkName).isSome = false := by rw [hname]; rfl
  unfold CreateSymbolicLink
  simp only [PathExists, hstat, Option.isSome_some, Bool.not_true, Bool.false_eq_true,
    if_false, hgn, IsFile, if_true, EnsureDirExists, hfiles]
  unfold createMoveAndLink
  simp only [MoveFileOrDir, hmv]
  simp only [hsym, Bool.false_eq_true, if_false]
  refine ⟨by trivial, ?_, by trivial⟩
  simp only [List.mem_append]
  exact Or.inr (rename_mem_move_trace cenv.moveBack _ _ _)

/-- Witness for C8: a file target whose move succeeds and whose symlink
creation then fails. -/
theorem C8_rollback_witness :
    (CreateSymbolicLink ⟨⟨RenameOutcome.ok, true, true⟩, false, ⟨RenameOutcome.ok, true, true⟩, true, 7⟩
        ⟨⟨⟨⟨"/sync"⟩, []⟩, "1.0"⟩, none⟩ [("/t", FSNode.file [5])]
        "/t" "a" "/sync").err.isSome = true
    ∧ Action.rename "/sync/files/a" "/t"
        ∈ (CreateSymbolicLink ⟨⟨RenameOutcome.ok, true, true⟩, false, ⟨RenameOutcome.ok, true, true⟩, true, 7⟩
            ⟨⟨⟨⟨"/sync"⟩, []⟩, "1.0"⟩, none⟩ [("/t", FSNode.file [5])]
            "/t" "a" "/sync").tr := by
  have h := C8_rollback
    ⟨⟨RenameOutcome.ok, true, true⟩, false, ⟨RenameOutcome.ok, true, true⟩, true, 7⟩
    ⟨⟨⟨⟨"/sync"⟩, []⟩, "1.0"⟩, none⟩ [("/t", FSNode.file [5])]
    "/t" "a" "/sync" [5] rfl rfl rfl rfl rfl
  exact ⟨h.1, h.2.1⟩

/-- C10: for a Symlink-kind create whose target is a regular file, the
computed synced path `syncDir/files/<name>` is not checked for prior
existence — a file already there is silently overwritten (the same-device
rename path shown here replaces it; the cross-device `CopyFile` fallback
opens the destination with truncation) — unlike the directory case, which
rejects an existing sync destination and changes nothing. -/
theorem C10_file_overwrite (cenv : CreateEnv) (reg : RegState) (fs : FS)
    (targetPath linkName syncDir : String) (c oldc : List Nat) (ds : List String)
    (hname : reg.mem.cfg.getLink linkName = none)
    (htarget : fsLookup fs targetPath = some (FSNode.file c))
    (hfilesdir : fsLookup fs (pjoin syncDir "files") = some (FSNode.dir ds))
    (_hold : fsLookup fs (pjoin (pjoin syncDir "files") linkName)
        = some (FSNode.file oldc))
    (hne : targetPath ≠ pjoin (pjoin syncDir "files") linkName)
    (hmv : cenv.move.renameOutcome = RenameOutcome.ok)
    (hsym : cenv.symlinkOk = true)
    (hsave : cenv.saveOk = true) :
    ((CreateSymbolicLink cenv reg fs targetPath linkName syncDir).err = none
     ∧ fsLookup (CreateSymbolicLink cenv reg fs targetPath linkName syncDir).fs
         (pjoin (pjoin syncDir "files") linkName) = some (FSNode.file c))
    ∧ (∀ (reg2 : RegState) (fs2 : FS) (t2 n2 sd2 : String) (es : List String),
        reg2.mem.cfg.getLink n2 = none →
        fsLookup fs2 t2 = some (FSNode.dir es) →
        PathExists fs2 (pjoin sd2 n2) = true →
        (CreateSymbolicLink cenv reg2 fs2 t2 n2 sd2).err.isSome = true
        ∧ (CreateSymbolicLink cenv reg2 fs2 t2 n2 sd2).fs = fs2
        ∧ (CreateSymbolicLink cenv reg2 fs2 t2 n2 sd2).tr = []
        ∧ (CreateSymbolicLink cenv reg2 fs2 t2 n2 sd2).reg = reg2) := by
  constructor
  · have hstat : fsStat fs targetPath = some (FSNode.file c) :=
      fsStat_file fs targetPath c htarget
    have hgn : (reg.mem.cfg.getLink linkName).isSome = false := by rw [hname]; rfl
    unfold CreateSymbolicLink
    simp only [PathExists, hstat, Option.isSome_some, Bool.not_true, Bool.false_eq_true,
      if_false, hgn, IsFile, if_true, EnsureDirExists, hfilesdir]
    unfold createMoveAndLink
    simp only [MoveFileOrDir, hmv, fsRename, htarget]
    simp only [hsym, if_true]
    simp only [AddLink, SaveConfig, hsave, if_true]
    refine ⟨by trivial, ?_⟩
    rw [fsLookup_insert_ne _ _ _ _ (Ne.symm hne)]
    exact fsLookup_insert_self _ _ _
  · intro reg2 fs2 t2 n2 sd2 es hname2 htarget2 hexists2
    have hstat2 : fsStat fs2 t2 = some (FSNode.dir es) :=
      fsStat_dir fs2 t2 es htarget2
    have hgn2 : (reg2.mem.cfg.getLink n2).isSome = false := by rw [hname2]; rfl
    unfold CreateSymbolicLink
    simp only [PathExists, hstat2, Option.isSome_some, Bool.not_true, Bool.false_eq_true,
      if_false, hgn2, IsFile, IsDir, if_true]
    have hex : (fsStat fs2 (pjoin sd2 n2)).isSome = true := hexists2
    simp [hex]

/-- Witness for C10: a pre-existing file at the computed synced path is
overwritten by the create of link `a`, and a directory create onto an
existing sync destination is rejected. -/
theorem C10_file_overwrite_witness :
    ((CreateSymbolicLink ⟨⟨RenameOutcome.ok, true, true⟩, true, ⟨RenameOutcome.ok, true, true⟩, true, 7⟩
        ⟨⟨⟨⟨"/sync"⟩, []⟩, "1.0"⟩, none⟩
        [("/t", FSNode.file [5]), ("/sync/files", FSNode.dir ["a"]),
          ("/sync/files/a", FSNode.file [9])]
        "/t" "a" "/sync").err = none
     ∧ fsLookup (CreateSymbolicLink ⟨⟨RenameOutcome.ok, true, true⟩, true, ⟨RenameOutcome.ok, true, true⟩, true, 7⟩
        ⟨⟨⟨⟨"/sync"⟩, []⟩, "1.0"⟩, none⟩
        [("/t", FSNode.file [5]), ("/sync/files", FSNode.dir ["a"]),
          ("/sync/files/a", FSNode.file [9])]
        "/t" "a" "/sync").fs "/sync/files/a" = some (FSNode.file [5]))
    ∧ (CreateSymbolicLink ⟨⟨RenameOutcome.ok, true, true⟩, true, ⟨RenameOutcome.ok, true, true⟩, true, 7⟩
        ⟨⟨⟨⟨"/sync"⟩, []⟩, "1.0"⟩, none⟩
        [("/d", FSNode.dir ["x"]), ("/sync/a", FSNode.dir [])]
        "/d" "a" "/sync").err.isSome = true := by
  have h := C10_file_overwrite
    ⟨⟨RenameOutcome.ok, true, true⟩, true, ⟨RenameOutcome.ok, true, true⟩, true, 7⟩
    ⟨⟨⟨⟨"/sync"⟩, []⟩, "1.0"⟩, none⟩
    [("/t", FSNode.file [5]), ("/sync/files", FSNode.dir ["a"]),
      ("/sync/files/a", FSNode.file [9])]
    "/t" "a" "/sync" [5] [9] ["a"] rfl rfl rfl rfl (by decide) rfl rfl rfl
  refine ⟨h.1, ?_⟩
  exact (h.2 ⟨⟨⟨⟨"/sync"⟩, []⟩, "1.0"⟩, none⟩
    [("/d", FSNode.dir ["x"]), ("/sync/a", FSNode.dir [])]
    "/d" "a" "/sync" ["x"] rfl rfl (by decide)).1

/-- C1 counterexample: with link name `a` already registered, the
Shortcut-kind `createRedirect` (`CreateLinkOrShortcut` with `isShortcut =
true`, all capabilities working) does not fail — it succeeds, creates the
artifact, and overwrites the existing registry record. -/
theorem C1_counterexample :
    (CreateLinkOrShortcut
        ⟨⟨RenameOutcome.ok, true, true⟩, true, ⟨RenameOutcome.ok, true, true⟩, true, 5⟩
        ⟨true, true, "/sm", true, true, true⟩
        ⟨⟨⟨⟨"/sync"⟩, [("a", ⟨false, "/orig", "/sync/files/a", 0⟩)]⟩, "1.0"⟩, none⟩
        [("/t", FSNode.file [1]), ("/sm", FSNode.dir [])]
        "/t" "a" "/sync" true).err = none
    ∧ (CreateLinkOrShortcut
        ⟨⟨RenameOutcome.ok, true, true⟩, true, ⟨RenameOutcome.ok, true, true⟩, true, 5⟩
        ⟨true, true, "/sm", true, true, true⟩
        ⟨⟨⟨⟨"/sync"⟩, [("a", ⟨false, "/orig", "/sync/files/a", 0⟩)]⟩, "1.0"⟩, none⟩
        [("/t", FSNode.file [1]), ("/sm", FSNode.dir [])]
        "/t" "a" "/sync" true).reg.mem.cfg.getLink "a"
        = some ⟨true, "/t", "/sm/a.lnk", 5⟩ := by
  constructor <;> rfl

/-- C1 (amended): for Symlink kind, `createRedirect` with an
already-registered name always fails, leaving the registry and the
filesystem untouched and attempting no syscall; for Shortcut kind the
engine-level `createRedirect` performs no duplicate-name check — invoked
with an existing name and a working platform capability it succeeds,
creating/overwriting the artifact and overwriting the registry record (the
duplicate rejection for shortcuts lives only in the CLI layer, which checks
the name before calling the engine). -/
theorem C1_amended (cenv : CreateEnv) (senv : ShortcutEnv) (reg : RegState)
    (fs : FS) (targetPath linkName syncDir : String)
    (hdup : (reg.mem.cfg.getLink linkName).isSome = true) :
    ((CreateLinkOrShortcut cenv senv reg fs targetPath linkName syncDir false).err.isSome = true
     ∧ (CreateLinkOrShortcut cenv senv reg fs targetPath linkName syncDir false).reg = reg
     ∧ (CreateLinkOrShortcut cenv senv reg fs targetPath linkName syncDir false).fs = fs
     ∧ (CreateLinkOrShortcut cenv senv reg fs targetPath linkName syncDir false).tr = [])
    ∧ (senv.delegates = true → senv.startMenuOk = true → senv.createOk = true →
       senv.saveOk = true →
       ∀ (ds : List String), fsLookup fs senv.startMenuPath = some (FSNode.dir ds) →
       PathExists fs targetPath = true →
       (CreateLinkOrShortcut cenv senv reg fs targetPath linkName syncDir true).err = none
       ∧ (CreateLinkOrShortcut cenv senv reg fs targetPath linkName syncDir true).reg.mem.cfg.getLink linkName
           = some ⟨true, targetPath, pjoin senv.startMenuPath (linkName ++ ".lnk"), cenv.now⟩) := by
  constructor
  · cases hpe : PathExists fs targetPath with
    | false => simp [CreateLinkOrShortcut, CreateSymbolicLink, hpe]
    | true => simp [CreateLinkOrShortcut, CreateSymbolicLink, hpe, hdup]
  · intro hd hm hc hs ds hsm hpe
    unfold CreateLinkOrShortcut
    simp only [hd, hm, hpe, Bool.not_true, Bool.false_eq_true, if_false, if_true,
      createShortcutWindows, EnsureDirExists, hsm, hc, AddLink, SaveConfig, hs]
    exact ⟨by trivial, getLink_linksInsert reg.mem.cfg reg.mem.cfg.settings linkName _⟩

/-- Witness for C1 (amended): at a registry already holding `a`, the
Symlink-kind create fails while the Shortcut-kind create succeeds. -/
theorem C1_amended_witness :
    (CreateLinkOrShortcut
        ⟨⟨RenameOutcome.ok, true, true⟩, true, ⟨RenameOutcome.ok, true, true⟩, true, 5⟩
        ⟨true, true, "/sm2", true, true, true⟩
        ⟨⟨⟨⟨"/sync"⟩, [("a", ⟨false, "/orig", "/sync/files/a", 0⟩)]⟩, "1.0"⟩, none⟩
        [("/t", FSNode.file [1]), ("/sm2", FSNode.dir [])]
        "/t" "a" "/sync" false).err.isSome = true
    ∧ (CreateLinkOrShortcut
        ⟨⟨RenameOutcome.ok, true, true⟩, true, ⟨RenameOutcome.ok, true, true⟩, true, 5⟩
        ⟨true, true, "/sm2", true, true, true⟩
        ⟨⟨⟨⟨"/sync"⟩, [("a", ⟨false, "/orig", "/sync/files/a", 0⟩)]⟩, "1.0"⟩, none⟩
        [("/t", FSNode.file [1]), ("/sm2", FSNode.dir [])]
        "/t" "a" "/sync" true).err = none := by
  have h := C1_amended
    ⟨⟨RenameOutcome.ok, true, true⟩, true, ⟨RenameOutcome.ok, true, true⟩, true, 5⟩
    ⟨true, true, "/sm2", true, true, true⟩
    ⟨⟨⟨⟨"/sync"⟩, [("a", ⟨false, "/orig", "/sync/files/a", 0⟩)]⟩, "1.0"⟩, none⟩
    [("/t", FSNode.file [1]), ("/sm2", FSNode.dir [])]
    "/t" "a" "/sync" (by decide)
  exact ⟨h.1.1, (h.2 rfl rfl rfl rfl [] rfl (by decide)).1⟩

/-- C2 counterexample: for a Shortcut-kind link whose artifact is present
and already points at the recorded target, `relinkRedirect` is not a no-op:
it deletes the artifact and recreates it. -/
theorem C2_counterexample :
    (RelinkLinkOrShortcut ⟨true, true, true⟩ ⟨true, true, "/sm", true, true, true⟩
        ⟨⟨⟨⟨"/sync"⟩, [("a", ⟨true, "/t", "/sm/a.lnk", 0⟩)]⟩, "1.0"⟩, none⟩
        [("/sm/a.lnk", FSNode.shortcutFile "/t"), ("/sm", FSNode.dir ["a.lnk"]),
          ("/t", FSNode.file [1])]
        "a").tr
      = [Action.removeP "/sm/a.lnk", Action.mkShortcut "/sm/a.lnk"] := by
  rfl

/-- C2 (amended): for Symlink kind, `relinkRedirect` on an already-correct
redirect is a strict no-op — no syscall is attempted and registry and
filesystem are returned unchanged.  For Shortcut kind, `relinkRedirect` on
an already-correct artifact unconditionally deletes the artifact and
recreates it from the record: the registry is unchanged and the artifact
again targets the recorded original path, but a delete and a recreate are
performed rather than nothing. -/
theorem C2_amended :
    (∀ (renv : RelinkEnv) (senv : ShortcutEnv) (reg : RegState) (fs : FS)
       (name : String) (info : LinkInfo) (c : List Nat),
      reg.mem.cfg.getLink name = some info →
      info.shortcut = false →
      (info.originalPath == "") = false →
      (info.syncedPath == "") = false →
      fsLookup fs info.originalPath = some (FSNode.symlink info.syncedPath) →
      fsLookup fs info.syncedPath = some (FSNode.file c) →
      renv.readlinkOk = true →
      RelinkLinkOrShortcut renv senv reg fs name = ⟨none, reg, fs, []⟩)
    ∧ (∀ (renv : RelinkEnv) (senv : ShortcutEnv) (reg : RegState) (fs : FS)
        (name : String) (info : LinkInfo) (ds : List String),
      reg.mem.cfg.getLink name = some info →
      info.shortcut = true →
      senv.delegates = true → senv.startMenuOk = true →
      senv.removeOk = true → senv.createOk = true →
      fsLookup fs (pjoin senv.startMenuPath (name ++ ".lnk"))
          = some (FSNode.shortcutFile info.originalPath) →
      fsLookup fs senv.startMenuPath = some (FSNode.dir ds) →
      (RelinkLinkOrShortcut renv senv reg fs name).err = none
      ∧ (RelinkLinkOrShortcut renv senv reg fs name).reg = reg
      ∧ (RelinkLinkOrShortcut renv senv reg fs name).tr
          = [Action.removeP (pjoin senv.startMenuPath (name ++ ".lnk")),
             Action.mkShortcut (pjoin senv.startMenuPath (name ++ ".lnk"))]
      ∧ fsLookup (RelinkLinkOrShortcut renv senv reg fs name).fs
          (pjoin senv.startMenuPath (name ++ ".lnk"))
          = some (FSNode.shortcutFile info.originalPath)) := by
  constructor
  · intro renv senv reg fs name info c hget hkind hop hsp horig hsync hro
    have hstat : fsStat fs info.originalPath = some (FSNode.file c) :=
      fsStat_symlink_file fs info.originalPath info.syncedPath c horig hsync
    unfold RelinkLinkOrShortcut
    rw [hget]
    simp only [hkind, Bool.false_eq_true, if_false]
    unfold RelinkSymbolicLink
    rw [hget]
    simp only [hkind, hop, hsp, Bool.or_self, Bool.false_eq_true, if_false,
      PathExists, hstat, Option.isSome_some, Bool.not_true, IsSymlink, horig,
      if_true, hro, readlinkTarget, ne_eq, not_true_eq_false, wrapErr]
  · intro renv senv reg fs name info ds hget hkind hd hm hrm hc hart hsm
    have hp : senv.startMenuPath ≠ pjoin senv.startMenuPath (name ++ ".lnk") :=
      Ne.symm (pjoin_ne senv.startMenuPath (name ++ ".lnk"))
    have hstat : fsStat fs (pjoin senv.startMenuPath (name ++ ".lnk"))
        = some (FSNode.shortcutFile info.originalPath) :=
      fsStat_shortcutFile _ _ _ hart
    unfold RelinkLinkOrShortcut
    rw [hget]
    simp only [hkind, if_true, hd, hm, Bool.not_true, Bool.false_eq_true, if_false]
    unfold relinkShortcutWindows removeShortcutWindows createShortcutWindows
    simp only [PathExists, hstat, Option.isSome_some, if_true, hrm, EnsureDirExists]
    rw [fsLookup_erase_ne fs _ senv.startMenuPath hp]
    simp only [hsm, hc, if_true]
    exact ⟨by trivial, by trivial, by trivial, fsLookup_insert_self _ _ _⟩

/-- Witness for C2 (amended): a healthy symlink redirect is returned
untouched with an empty trace, and a healthy shortcut artifact is relinked
without error. -/
theorem C2_amended_witness :
    RelinkLinkOrShortcut ⟨true, true, true⟩ ⟨true, true, "/sm", true, true, true⟩
        ⟨⟨⟨⟨"/sync"⟩, [("b", ⟨false, "/orig", "/sync/files/b", 0⟩)]⟩, "1.0"⟩, none⟩
        [("/orig", FSNode.symlink "/sync/files/b"), ("/sync/files/b", FSNode.file [3])]
        "b"
      = ⟨none,
          ⟨⟨⟨⟨"/sync"⟩, [("b", ⟨false, "/orig", "/sync/files/b", 0⟩)]⟩, "1.0"⟩, none⟩,
          [("/orig", FSNode.symlink "/sync/files/b"), ("/sync/files/b", FSNode.file [3])],
          []⟩
    ∧ (RelinkLinkOrShortcut ⟨true, true, true⟩ ⟨true, true, "/sm", true, true, true⟩
        ⟨⟨⟨⟨"/sync"⟩, [("s", ⟨true, "/t", "/sm/s.lnk", 0⟩)]⟩, "1.0"⟩, none⟩
        [("/sm/s.lnk", FSNode.shortcutFile "/t"), ("/sm", FSNode.dir ["s.lnk"])]
        "s").err = none := by
  have h1 := C2_amended.1 ⟨true, true, true⟩ ⟨true, true, "/sm", true, true, true⟩
    ⟨⟨⟨⟨"/sync"⟩, [("b", ⟨false, "/orig", "/sync/files/b", 0⟩)]⟩, "1.0"⟩, none⟩
    [("/orig", FSNode.symlink "/sync/files/b"), ("/sync/files/b", FSNode.file [3])]
    "b" ⟨false, "/orig", "/sync/files/b", 0⟩ [3]
    rfl rfl (by decide) (by decide) rfl rfl rfl
  have h2 := C2_amended.2 ⟨true, true, true⟩ ⟨true, true, "/sm", true, true, true⟩
    ⟨⟨⟨⟨"/sync"⟩, [("s", ⟨true, "/t", "/sm/s.lnk", 0⟩)]⟩, "1.0"⟩, none⟩
    [("/sm/s.lnk", FSNode.shortcutFile "/t"), ("/sm", FSNode.dir ["s.lnk"])]
    "s" ⟨true, "/t", "/sm/s.lnk", 0⟩ ["s.lnk"]
    rfl rfl rfl rfl rfl rfl rfl rfl
  exact ⟨h1, h2.1⟩

end SyncLink
